import Mathlib

/-!
Verification of the parking-lot core (`src/main.py`) against its
natural-language specification.

The Python source is shallowly embedded: every mutable object becomes a Lean
structure, every method becomes a pure function that takes the current state
of the objects it touches and returns the updated state.  A Python exception
is modelled by `Except PyError`; a `raise Exception` placeholder in the source
is the constructor `PyError.exception`, while exceptions the interpreter
itself raises (wrong call arity, missing `__getitem__`, attribute access on
`None`, exhausted recursion limit, `set.remove` on an absent element) are the
constructors `typeError`, `attributeError`, `recursionError` and `keyError`.
Timestamps (`datetime.datetime.now()`) are integers counting seconds; each
operation that reads the ambient clock takes the current time as an explicit
`now` argument.  The self-recursive properties `Spot.name` (line 39,
`return self.name`) and `Ticket.spot` (line 188, `return self.spot`) are
embedded as fuel-indexed functions where the fuel plays the role of CPython's
recursion limit: exhausting any limit yields `recursionError`.
-/

namespace ParkingLots

/-- Exception outcomes of the embedded Python code.  `exception` is the bare
`raise Exception` placeholder used at every explicit raise site of the source;
the other constructors are exceptions raised by the interpreter itself. -/
inductive PyError
  | exception
  | typeError
  | attributeError
  | keyError
  | recursionError
deriving DecidableEq

/-- `SpotTypeEnum` (main.py lines 7-13), the closed enumeration of spot and
vehicle types. -/
inductive SpotTypeEnum
  | cycle
  | motor_cycle
  | compact_vehicle
  | regular_vehicle
  | handicapped_spot
  | electric_vehicle
deriving DecidableEq

/-- `Vehicle` (lines 16-19): immutable licence plate plus type tag. -/
structure Vehicle where
  licence_plate : String
  vehicle_type : SpotTypeEnum
deriving DecidableEq

/-- `Spot` (lines 22-53): the fields `_name`, `_spot_type`, `_vehicle`,
`_has_been_booked` set by `__init__`. -/
structure Spot where
  name : String
  spot_type : SpotTypeEnum
  vehicle : Option Vehicle
  has_been_booked : Bool
deriving DecidableEq

/-- `Spot.__init__` (lines 23-31): fresh spot, no occupant, not booked. -/
def Spot.init (name : String) (spot_type : SpotTypeEnum) : Spot :=
  { name := name, spot_type := spot_type, vehicle := none, has_been_booked := false }

/-- `Spot.is_available` (lines 41-43): `self._vehicle is None and not
self._has_been_booked`. -/
def Spot.is_available (s : Spot) : Bool :=
  s.vehicle.isNone && !s.has_been_booked

/-- `Spot.book` (lines 45-46).  The method is declared with no parameter
besides `self` and unconditionally sets `_has_been_booked = True`; it performs
no availability check and raises nothing. -/
def Spot.book (s : Spot) : Spot :=
  { s with has_been_booked := true }

/-- `Spot.park_vehicle` (lines 48-49): sets `_vehicle = vehicle`. -/
def Spot.park_vehicle (s : Spot) (vehicle : Vehicle) : Spot :=
  { s with vehicle := some vehicle }

/-- `Spot.remove_vehicle` (lines 51-53): unconditionally sets `_vehicle =
None` and `_has_been_booked = False`; the `vehicle` argument is ignored and
no state is checked. -/
def Spot.remove_vehicle (s : Spot) (vehicle : Vehicle) : Spot :=
  { s with vehicle := none, has_been_booked := false }

/-- The `name` property (lines 37-39) reads `return self.name`, invoking the
property itself; the fuel argument is the interpreter's recursion limit and
every limit is exhausted. -/
def Spot.name_getter (s : Spot) : Nat → Except PyError String
  | 0 => .error .recursionError
  | n + 1 => s.name_getter n

/-- Python's `%` on integers (used to model `timedelta.seconds`): the result
lies in `[0, 86400)` for a positive modulus, which Lean's `Int.emod` (the
default `%` on `Int`) also guarantees.  A `timedelta` of `t` total seconds is
normalised to `days = t / 86400` (floor) and `seconds = t % 86400`, so its
`.seconds` attribute is `t % 86400`: for a negative `t` such as `-120` this
is `86280`. -/
def timedeltaSeconds (t : Int) : Int := t % 86400

/-- `ParkingHistory` (lines 56-79): fields `_vehicle`, `_from_time`,
`_to_time`.  The `_spot` reference of the Python object aliases a mutable
`Spot` shared with the Ticket and the caller, so the spot's current state is
passed explicitly to each method instead of being stored. -/
structure ParkingHistory where
  vehicle : Vehicle
  from_time : Int
  to_time : Option Int
deriving DecidableEq

/-- `ParkingHistory.__init__` (lines 57-66): records `from_time = now`,
leaves `to_time = None`, and as a side effect calls
`self._spot.park_vehicle(self._vehicle)` on the shared spot — the updated
spot is returned alongside the record. -/
def ParkingHistory.init (vehicle : Vehicle) (spot : Spot) (now : Int) :
    ParkingHistory × Spot :=
  ({ vehicle := vehicle, from_time := now, to_time := none },
   spot.park_vehicle vehicle)

/-- `ParkingHistory.exit` (lines 68-70): stamps `to_time = now` and calls
`self._spot.remove_vehicle(self._vehicle)` on the shared spot. -/
def ParkingHistory.exit (ph : ParkingHistory) (spot : Spot) (now : Int) :
    ParkingHistory × Spot :=
  ({ ph with to_time := some now }, spot.remove_vehicle ph.vehicle)

/-- `ParkingHistory.get_total_parking_time` (lines 72-79): returns
`(self._to_time - self._from_time).seconds` when both ends are set
(`from_time` is always set by the constructor), else `raise Exception`. -/
def ParkingHistory.get_total_parking_time (ph : ParkingHistory) :
    Except PyError Int :=
  match ph.to_time with
  | some t => .ok (timedeltaSeconds (t - ph.from_time))
  | none => .error .exception

/-- `Row` (lines 82-93): a named collection of spots (the Python `set` is a
list here; only its size is ever consumed). -/
structure Row where
  name : String
  spots : List Spot
deriving DecidableEq

/-- `Row.number_of_spots` (lines 87-89). -/
def Row.number_of_spots (r : Row) : Nat := r.spots.length

/-- `Level` (lines 96-111): `number_of_spots` is summed over the rows in
`__init__`. -/
structure Level where
  name : String
  rows : List Row
  number_of_spots : Nat
deriving DecidableEq

/-- `Level.__init__` (lines 97-103). -/
def Level.init (name : String) (rows : List Row) : Level :=
  { name := name, rows := rows,
    number_of_spots := (rows.map Row.number_of_spots).sum }

/-- `Level.number_of_rows` (lines 105-107). -/
def Level.number_of_rows (l : Level) : Nat := l.rows.length

/-- `SpotHierarchy` (lines 114-123): the `{level, row, spot}` locator. -/
structure SpotHierarchy where
  level : Level
  row : Row
  spot : Spot
deriving DecidableEq

/-- Membership type of the available-spots index.  Python sets are untyped:
the observers insert `Spot` objects (line 131) while `ParkingLot.__init__`
inserts whole `SpotHierarchy` locators (lines 362-363), so the index can hold
either. -/
inductive IndexEntry
  | spotEntry (spot : Spot)
  | hierEntry (loc : SpotHierarchy)
deriving DecidableEq

/-- `AvailableSpots` (lines 126-134): `defaultdict(set)` keyed by spot type,
modelled as a total function into lists with insertion deduplicated. -/
structure AvailableSpots where
  available_spots : SpotTypeEnum → List IndexEntry

/-- A fresh `AvailableSpots()`: every key of the defaultdict is empty. -/
def AvailableSpots.empty : AvailableSpots := ⟨fun _ => []⟩

/-- `self.available_spots[ty].add(e)`: set insertion under one key. -/
def AvailableSpots.addEntry (a : AvailableSpots) (ty : SpotTypeEnum)
    (e : IndexEntry) : AvailableSpots :=
  ⟨fun t => if t = ty then (a.available_spots t).insert e
            else a.available_spots t⟩

/-- `AvailableSpots.add_to_available_spots` (lines 130-131): inserts the
`Spot` object under its type. -/
def AvailableSpots.add_to_available_spots (a : AvailableSpots) (spot : Spot) :
    AvailableSpots :=
  a.addEntry spot.spot_type (.spotEntry spot)

/-- `AvailableSpots.remove_from_available_spots` (lines 133-134): Python's
`set.remove` raises `KeyError` when the element is absent. -/
def AvailableSpots.remove_from_available_spots (a : AvailableSpots)
    (spot : Spot) : Except PyError AvailableSpots :=
  if IndexEntry.spotEntry spot ∈ a.available_spots spot.spot_type then
    .ok ⟨fun t => if t = spot.spot_type then
            (a.available_spots t).erase (.spotEntry spot)
          else a.available_spots t⟩
  else
    .error .keyError

/-- `ParkingHistoryStore` (lines 137-142): a set of history records. -/
structure ParkingHistoryStore where
  parking_history_store : List ParkingHistory
deriving DecidableEq

/-- `ParkingHistoryStore.add` (lines 141-142). -/
def ParkingHistoryStore.add (st : ParkingHistoryStore) (ph : ParkingHistory) :
    ParkingHistoryStore :=
  ⟨st.parking_history_store.insert ph⟩

/-- `AvailableSpotsObserver.notify_park` (lines 155-156): delegates to
`remove_from_available_spots`. -/
def AvailableSpotsObserver.notify_park (a : AvailableSpots) (spot : Spot) :
    Except PyError AvailableSpots :=
  a.remove_from_available_spots spot

/-- `AvailableSpotsObserver.notify_exit` (lines 158-159): delegates to
`add_to_available_spots`. -/
def AvailableSpotsObserver.notify_exit (a : AvailableSpots) (spot : Spot) :
    AvailableSpots :=
  a.add_to_available_spots spot

/-- `ParkingHistoryObserver.notify` (lines 169-170): delegates to the store's
`add`. -/
def ParkingHistoryObserver.notify (st : ParkingHistoryStore)
    (ph : ParkingHistory) : ParkingHistoryStore :=
  st.add ph

/-- `Ticket` (lines 174-209): fields `_vehicle`, `_spot`,
`_parking_history`, `_parked_at`, `_exit_at` as set by `__init__`. -/
structure Ticket where
  vehicle : Vehicle
  spot : Spot
  parking_history : Option ParkingHistory
  parked_at : Option Int
  exit_at : Option Int
deriving DecidableEq

/-- `Ticket.__init__` (lines 175-184): binds the vehicle and spot, with no
history and no timestamps. -/
def Ticket.init (vehicle : Vehicle) (spot : Spot) : Ticket :=
  { vehicle := vehicle, spot := spot, parking_history := none,
    parked_at := none, exit_at := none }

/-- The `spot` property (lines 186-188) reads `return self.spot`, invoking
the property itself; the fuel argument is the interpreter's recursion limit
and every limit is exhausted. -/
def Ticket.spot_getter (t : Ticket) : Nat → Except PyError Spot
  | 0 => .error .recursionError
  | n + 1 => t.spot_getter n

/-- `Ticket.calculate_total_parking_time` (lines 194-201): when both
timestamps are set it returns `(self._parked_at - self._exit_at).seconds` —
note the subtraction order, park time minus exit time — otherwise
`raise Exception`. -/
def Ticket.calculate_total_parking_time (t : Ticket) : Except PyError Int :=
  match t.parked_at, t.exit_at with
  | some p, some e => .ok (timedeltaSeconds (p - e))
  | _, _ => .error .exception

/-- `Ticket.park` (lines 203-205): stamps `_parked_at = now` and builds the
`ParkingHistory`, whose constructor parks the vehicle on the shared spot.
Returns the updated ticket, the updated spot, and the created record. -/
def Ticket.park (t : Ticket) (s : Spot) (now : Int) :
    Ticket × Spot × ParkingHistory :=
  let ps := ParkingHistory.init t.vehicle s now
  ({ t with parked_at := some now, parking_history := some ps.1 },
   ps.2, ps.1)

/-- `Ticket.exit` (lines 207-209): stamps `_exit_at = now` then calls
`self._parking_history.exit()`; when no history exists the attribute access
on `None` raises `AttributeError`. -/
def Ticket.exit (t : Ticket) (s : Spot) (now : Int) :
    Except PyError (Ticket × Spot) :=
  match t.parking_history with
  | none => .error .attributeError
  | some ph =>
    let ps := ParkingHistory.exit ph s now
    .ok ({ t with exit_at := some now, parking_history := some ps.1 }, ps.2)

/-- `TicketManager.create_ticket` (lines 237-241): raises the bare
`Exception` when the types disagree or the spot is unavailable.  Otherwise it
executes `spot.book(vehicle)` — but `Spot.book` (line 45) accepts no argument
besides `self`, so the call raises `TypeError` before any mutation and the
`Ticket(...)` construction on line 241 is unreachable. -/
def TicketManager.create_ticket (vehicle : Vehicle) (spot : Spot) :
    Except PyError (Spot × Ticket) :=
  if vehicle.vehicle_type ≠ spot.spot_type ∨ spot.is_available = false then
    .error .exception
  else
    .error .typeError

/-- `TicketManager.park` (lines 243-245): runs `ticket.park()` (which
succeeds and mutates ticket and spot) and then `_entry_notify` (lines
230-232), whose first step evaluates the `ticket.spot` property; after the
getter the available-spots observer and the history observer would fire in
that order. -/
def TicketManager.park (t : Ticket) (s : Spot) (now : Int)
    (avail : AvailableSpots) (store : ParkingHistoryStore) (fuel : Nat) :
    Except PyError (Ticket × Spot × AvailableSpots × ParkingHistoryStore) :=
  let tsp := Ticket.park t s now
  match tsp.1.spot_getter fuel with
  | .error e => .error e
  | .ok sp =>
    match AvailableSpotsObserver.notify_park avail sp with
    | .error e => .error e
    | .ok a2 =>
      .ok (tsp.1, tsp.2.1, a2, ParkingHistoryObserver.notify store tsp.2.2)

/-- `TicketManager.exit` (lines 247-249): runs `ticket.exit()` then
`_exit_notify` (lines 234-235), which evaluates the `ticket.spot` property
and re-adds the spot to the index. -/
def TicketManager.exit (t : Ticket) (s : Spot) (now : Int)
    (avail : AvailableSpots) (fuel : Nat) :
    Except PyError (Ticket × Spot × AvailableSpots) :=
  match Ticket.exit t s now with
  | .error e => .error e
  | .ok ts =>
    match ts.1.spot_getter fuel with
    | .error e => .error e
    | .ok sp => .ok (ts.1, ts.2, AvailableSpotsObserver.notify_exit avail sp)

/-- Python's `round(x, 2)` idealised over exact rationals: scale by 100,
round half to even (Python's rounding mode), scale back.  No theorem below
exercises a tie, so the float-versus-rational idealisation is exact at every
evaluated point. -/
def pyRound2 (q : ℚ) : ℚ :=
  let scaled : ℚ := q * 100
  let fl : Int := ⌊scaled⌋
  let frac : ℚ := scaled - (fl : ℚ)
  let rounded : Int :=
    if frac < 1 / 2 then fl
    else if 1 / 2 < frac then fl + 1
    else if fl % 2 = 0 then fl else fl + 1
  (rounded : ℚ) / 100

/-- `SpotFee` (lines 253-263): base fee plus per-minute rate.  The six
nominal subclasses (`CycleFee` … `ElectricVehicleFee`, lines 266-287) add no
behaviour and are not distinguished here. -/
structure SpotFee where
  base_fee : ℚ
  fee_per_minute : ℚ
deriving DecidableEq

/-- `SpotFee.calculate_fee` (lines 262-263):
`round(ticket.calculate_total_parking_time() * fee_per_minute / 60 +
base_fee, 2)`, propagating the exception when the ticket's interval is not
closed. -/
def SpotFee.calculate_fee (fee : SpotFee) (t : Ticket) : Except PyError ℚ :=
  match t.calculate_total_parking_time with
  | .error e => .error e
  | .ok secs =>
    .ok (pyRound2 ((secs : ℚ) * fee.fee_per_minute / 60 + fee.base_fee))

/-- `FeeStructure` (lines 290-307): a dict from each of the six spot types to
an optional policy, built from the six keyword arguments. -/
structure FeeStructure where
  fee_structure : SpotTypeEnum → Option SpotFee

/-- `FeeStructure.__init__` (lines 291-307). -/
def FeeStructure.init (cycle_fee motorcyclefee compactvehiclefee
    regularvehiclefee handicappedspotfee electricvehiclefee : Option SpotFee) :
    FeeStructure :=
  ⟨fun ty => match ty with
    | .cycle => cycle_fee
    | .motor_cycle => motorcyclefee
    | .compact_vehicle => compactvehiclefee
    | .regular_vehicle => regularvehiclefee
    | .handicapped_spot => handicappedspotfee
    | .electric_vehicle => electricvehiclefee⟩

/-- The loop of `ParkingLot.__init__` (lines 361-367).  For the first
location it executes line 362-363, `self.available_spots.available_spots[
spot_location.spot.spot_type].add(spot_location)` — inserting the whole
`SpotHierarchy` locator, not the `Spot` — and then line 364 evaluates
`self.fee_structure[spot_location.spot.spot_type]`; `self.fee_structure` is
the `FeeStructure` object, which defines no `__getitem__`, so the subscript
raises `TypeError` before the `None` check on line 364, before
`self.levels.add` on line 367, and before any further location is visited.
The result carries the mutated index, the levels gathered so far, and the
exception if one was raised. -/
def ParkingLot.initLoop (avail : AvailableSpots) (levels : List Level) :
    List SpotHierarchy → AvailableSpots × List Level × Option PyError
  | [] => (avail, levels, none)
  | loc :: _rest =>
    (avail.addEntry loc.spot.spot_type (.hierEntry loc), levels,
     some .typeError)

/-- `ParkingLot.__init__` (lines 336-372) reduced to its observable result:
the state of the shared `AvailableSpots` after the constructor returns or
raises, and either the error or the derived aggregates `(levels,
number_of_levels, number_of_rows, number_of_spots)` computed by the second
loop (lines 369-372).  The `fee_structure` argument is accepted but never
successfully consulted, since the subscript on line 364 raises first. -/
def ParkingLot.init (spot_locations : List SpotHierarchy)
    (fee_structure : FeeStructure) (available_spots : AvailableSpots) :
    AvailableSpots × Except PyError (List Level × Nat × Nat × Nat) :=
  match ParkingLot.initLoop available_spots [] spot_locations with
  | (avail, _, some e) => (avail, .error e)
  | (avail, levels, none) =>
    (avail, .ok (levels, levels.length,
      (levels.map Level.number_of_rows).sum,
      (levels.map Level.number_of_spots).sum))

/-! Concrete sample data used by the closed theorems and witnesses below. -/

def plateKA01 : String := "KA-01"

def plateKA02 : String := "KA-02"

def plateCY01 : String := "CY-01"

def nameA1 : String := "A1"

def nameB1 : String := "B1"

def nameB2 : String := "B2"

def nameR1 : String := "R1"

def nameL1 : String := "L1"

/-- A regular vehicle, as in the spec's fee scenario. -/
def vehicleKA01 : Vehicle :=
  { licence_plate := plateKA01, vehicle_type := .regular_vehicle }

/-- A second regular vehicle. -/
def vehicleKA02 : Vehicle :=
  { licence_plate := plateKA02, vehicle_type := .regular_vehicle }

/-- A cycle, mismatching every regular spot. -/
def vehicleCY01 : Vehicle :=
  { licence_plate := plateCY01, vehicle_type := .cycle }

/-- A fresh available regular spot. -/
def spotA1 : Spot := Spot.init nameA1 .regular_vehicle

/-- A second fresh available regular spot. -/
def spotB2 : Spot := Spot.init nameB2 .regular_vehicle

/-- A spot that is already booked, hence not available. -/
def spotBookedB1 : Spot :=
  { name := nameB1, spot_type := .regular_vehicle, vehicle := none,
    has_been_booked := true }

def rowR1 : Row := { name := nameR1, spots := [spotA1] }

def levelL1 : Level := Level.init nameL1 [rowR1]

/-- One topology locator: level L1, row R1, spot A1. -/
def locA1 : SpotHierarchy := { level := levelL1, row := rowR1, spot := spotA1 }

/-- The spec scenario's fee policy: base 2.0, 0.5 per minute. -/
def feeHalfPerMinute : SpotFee := { base_fee := 2, fee_per_minute := 1 / 2 }

def feeUnit : SpotFee := { base_fee := 1, fee_per_minute := 1 }

/-- A fee structure with every one of the six policies present. -/
def feeAllPresent : FeeStructure :=
  FeeStructure.init (some feeUnit) (some feeUnit) (some feeUnit)
    (some feeUnit) (some feeUnit) (some feeUnit)

/-- A ticket whose stay was closed 120 seconds after it began (parked at
t = 0, exited at t = 120). -/
def ticketClosed120 : Ticket :=
  { vehicle := vehicleKA01, spot := spotA1, parking_history := none,
    parked_at := some 0, exit_at := some 120 }

/-- A freshly created ticket: no timestamps yet. -/
def ticketOpen : Ticket := Ticket.init vehicleKA01 spotA1

/-- The self-recursive `Ticket.spot` property never yields a value: every
recursion budget is exhausted. -/
theorem Ticket.spot_getter_diverges (t : Ticket) (fuel : Nat) :
    t.spot_getter fuel = .error .recursionError := by
  induction fuel with
  | zero => rfl
  | succ n ih => simpa [Ticket.spot_getter] using ih

/-- The self-recursive `Spot.name` property never yields a value. -/
theorem Spot.name_getter_diverges (s : Spot) (fuel : Nat) :
    s.name_getter fuel = .error .recursionError := by
  induction fuel with
  | zero => rfl
  | succ n ih => simpa [Spot.name_getter] using ih

/-- Claim C1: with matching types and an available spot, `create_ticket` is
claimed to succeed, book the spot and return a fresh Booked ticket.  The
code's success branch executes `spot.book(vehicle)` (line 240) against the
zero-argument `Spot.book` (line 45), so it raises `TypeError` instead; this
theorem exhibits exactly such a vehicle/spot pair and the error. -/
theorem create_ticket_raises_type_error_on_valid_pair :
    vehicleKA01.vehicle_type = spotA1.spot_type ∧
    spotA1.is_available = true ∧
    TicketManager.create_ticket vehicleKA01 spotA1 =
      Except.error PyError.typeError :=
  ⟨rfl, rfl, rfl⟩

/-- Claim C2: the fee for a stay closed after 120 seconds is claimed to be
`round(120*0.5/60 + 2.0, 2) = 3.0`.  The code computes
`(parked_at - exit_at).seconds` (line 200) — the reversed interval — whose
timedelta normalisation gives 86280 seconds and a fee of 721.0; the claim's
own formula over the correctly-oriented interval does give 3.0. -/
theorem fee_uses_reversed_interval :
    SpotFee.calculate_fee feeHalfPerMinute ticketClosed120 =
      Except.ok (721 : ℚ) ∧
    pyRound2 ((120 : ℚ) * (1 / 2) / 60 + 2) = 3 := by
  constructor
  · simp only [SpotFee.calculate_fee, Ticket.calculate_total_parking_time,
      ticketClosed120, timedeltaSeconds, feeHalfPerMinute]
    norm_num [pyRound2, Int.floor_ofNat]
  · norm_num [pyRound2, Int.floor_ofNat]

/-- Claim C3: `TicketManager.park` and `TicketManager.exit` are claimed to
run to completion on every ticket.  Both evaluate the `ticket.spot` property
(line 188, `return self.spot`) inside their notify step, which recurses until
the interpreter's limit and raises `RecursionError` for every recursion
budget, so neither operation ever completes; the `Spot.name` property (line
39) diverges the same way. -/
theorem park_and_exit_raise_recursion_error (t t2 : Ticket)
    (ph : ParkingHistory) (s s2 s3 : Spot) (now now2 : Int)
    (avail avail2 : AvailableSpots) (store : ParkingHistoryStore)
    (fuel fuel2 fuel3 : Nat) :
    TicketManager.park t s now avail store fuel =
      Except.error PyError.recursionError ∧
    TicketManager.exit { t2 with parking_history := some ph } s2 now2 avail2
      fuel2 = Except.error PyError.recursionError ∧
    s3.name_getter fuel3 = Except.error PyError.recursionError := by
  refine ⟨?_, ?_, Spot.name_getter_diverges s3 fuel3⟩
  · simp [TicketManager.park, Ticket.spot_getter_diverges]
  · simp [TicketManager.exit, Ticket.exit, ParkingHistory.exit,
      Ticket.spot_getter_diverges]

/-- Claim C4: the type-mismatch and unavailability guards are claimed to be
the only failure conditions of `create_ticket`.  The guard does raise (the
bare `Exception`, undifferentiated between the two conditions), but the
theorem also exhibits a third failure: with matching types and an available
spot the call still fails, with `TypeError` from `spot.book(vehicle)`. -/
theorem create_ticket_failure_conditions_not_exhaustive :
    vehicleKA02.vehicle_type = spotB2.spot_type ∧
    spotB2.is_available = true ∧
    TicketManager.create_ticket vehicleKA02 spotB2 =
      Except.error PyError.typeError ∧
    TicketManager.create_ticket vehicleCY01 spotB2 =
      Except.error PyError.exception :=
  ⟨rfl, rfl, rfl, rfl⟩

/-- Claim C5: a spot is claimed to appear in the available-spots index iff it
is available.  Constructing a lot over the single available spot A1, the
constructor's loop inserts the `SpotHierarchy` locator — not the `Spot` —
into the index and then raises `TypeError`, so the available spot A1 is not a
member of its type's index entry set. -/
theorem available_spot_missing_from_index :
    spotA1.is_available = true ∧
    (ParkingLot.initLoop AvailableSpots.empty [] [locA1]).2.2 =
      some PyError.typeError ∧
    IndexEntry.spotEntry spotA1 ∉
      (ParkingLot.initLoop AvailableSpots.empty [] [locA1]).1.available_spots
        SpotTypeEnum.regular_vehicle := by
  refine ⟨rfl, rfl, ?_⟩
  simp [ParkingLot.initLoop, AvailableSpots.addEntry, AvailableSpots.empty,
    locA1, spotA1, Spot.init, List.insert]

/-- Claim C6: after `park(ticket)` has completed, the spot is claimed absent
from the index and the open history present in the store.  `park` never
completes: for every recursion budget it fails (with `RecursionError` from
the `ticket.spot` property) before either observer runs, so no completed-park
state exists and neither store is updated. -/
theorem park_never_completes (t : Ticket) (s : Spot) (now : Int)
    (avail : AvailableSpots) (store : ParkingHistoryStore) (fuel : Nat) :
    (TicketManager.park t s now avail store fuel).isOk = false := by
  simp [TicketManager.park, Ticket.spot_getter_diverges, Except.isOk,
    Except.toBool]

/-- Claim C7: lot construction is claimed to succeed when every spot type in
the topology has a fee policy.  With a one-spot topology and all six policies
present, the constructor still fails: line 364 subscripts the `FeeStructure`
object, which supports no subscripting, raising `TypeError` on the first
location. -/
theorem parking_lot_init_raises_despite_full_fees :
    (feeAllPresent.fee_structure SpotTypeEnum.regular_vehicle).isSome = true ∧
    (ParkingLot.init [locA1] feeAllPresent AvailableSpots.empty).2 =
      Except.error PyError.typeError :=
  ⟨rfl, rfl⟩

/-- Claim C8 counterexample: `book()` invoked on a non-available (already
booked) spot is claimed to fail with `InvalidStateError`; instead it returns
normally — `Spot.book` raises nothing and merely sets the already-set flag,
so the booked spot comes back unchanged. -/
theorem book_on_unavailable_spot_returns_normally :
    spotBookedB1.is_available = false ∧ Spot.book spotBookedB1 = spotBookedB1 :=
  ⟨rfl, rfl⟩

/-- Claim C8 amended: `Spot.book` never fails in any state; on every spot,
available or not, it unconditionally sets the booked flag and returns —
availability is checked only by `create_ticket`'s guard before the call. -/
theorem book_unconditionally_sets_flag (s : Spot) :
    Spot.book s = { s with has_been_booked := true } := rfl

/-- Claim C9: on every ticket whose exit timestamp is unset, fee calculation
fails: `calculate_total_parking_time` finds `_exit_at is None`, skips the
return, and raises (the bare `Exception` that the spec names
`TicketStillParkedError`), which `calculate_fee` propagates. -/
theorem fee_before_exit_always_fails (fee : SpotFee) (t : Ticket)
    (h : t.exit_at = none) :
    SpotFee.calculate_fee fee t = Except.error PyError.exception := by
  cases hp : t.parked_at <;>
    simp [SpotFee.calculate_fee, Ticket.calculate_total_parking_time, h, hp]

/-- Witness for claim C9: a freshly created ticket has no exit timestamp and
its fee calculation fails. -/
theorem fee_before_exit_always_fails_witness :
    ticketOpen.exit_at = none ∧
    SpotFee.calculate_fee feeHalfPerMinute ticketOpen =
      Except.error PyError.exception :=
  ⟨rfl, fee_before_exit_always_fails feeHalfPerMinute ticketOpen rfl⟩

/-- Claim C10: `remove_vehicle` clears the occupant and the booked flag on
every spot and for every vehicle argument, the result is independent of which
vehicle is passed, and (being a total function with no raise site) no error
occurs even on an already-available spot. -/
theorem remove_vehicle_resets_unconditionally (s : Spot) (v w : Vehicle) :
    (s.remove_vehicle v).vehicle = none ∧
    (s.remove_vehicle v).has_been_booked = false ∧
    s.remove_vehicle v = s.remove_vehicle w :=
  ⟨rfl, rfl, rfl⟩

end ParkingLots
